import Mathlib

/-!
Verification of the directory-structure checker `dscheck.py`
(`building-a-python-cli-to-check-directory-structures`).

The Python module defines a schema data model (`FileStructure`,
`DirStructure`), a directory lister (`get_files_and_dirs`), four level
checks (`validate_required_file_structures`,
`validate_files_match_file_structures`, `validate_required_dir_structures`,
`validate_dirs_match_dir_structures`) and the top-level recursive
`validate_dir_structure`.

The embedding below is a direct translation:

* Pattern matching uses Python's `fnmatch.fnmatch` with POSIX
  `os.path.normcase` (the identity), i.e. case-sensitive shell-glob
  semantics as produced by `fnmatch.translate`.
* The filesystem is modelled as a partial map from path strings to
  directory listings, each listing a list of (name, kind) pairs; `kind`
  records what `Path(...).is_file()` / `Path(...).is_dir()` report
  (`other` stands for entries that are neither, e.g. broken symlinks).
  A path mapped to `none` is one on which `os.listdir` raises
  (nonexistent, not a directory, or unreadable); raised `OSError`s are
  embedded as `Except.error` carrying the offending path.
* Python's `logging.error` calls are the diagnostics of the run; each
  embedded function returns the list of diagnostics it emits, in
  emission order, next to its boolean result.
-/

namespace DSCheck

/-- Kind of a directory entry, as classified by `Path(...).is_file()` and
`Path(...).is_dir()` in `get_files_and_dirs`; `other` is an entry for which
both report false (e.g. a broken symlink or a socket). -/
inductive EntryKind where
  | file : EntryKind
  | dir : EntryKind
  | other : EntryKind
deriving DecidableEq, Repr

/-- A directory listing: the immediate entries of one directory, each with
its kind. `os.listdir` returns each name once. -/
abbrev Listing := List (String × EntryKind)

/-- The filesystem visible to the checker: `fs p = some l` means
`os.listdir p` returns the names in `l` (classified by kind);
`fs p = none` means `os.listdir p` raises an `OSError` (path does not
exist, is not a directory, or cannot be listed). -/
abbrev FS := String → Option Listing

/-- Python dataclass `FileStructure`: a glob pattern for a file, with an
optional flag defaulting to `False`. -/
structure FileStructure where
  pattern : String
  is_optional : Bool := false
deriving DecidableEq, Repr

/-- Python dataclass `DirStructure`: a glob pattern for a directory, an
optional flag, nested sub-directory schemas and file schemas. -/
structure DirStructure where
  pattern : String
  is_optional : Bool := false
  sub_dirs : List DirStructure := []
  files : List FileStructure := []
deriving Repr

/-- A diagnostic record: one `logging.error` call of the checker.
The four constructors correspond to the four messages
`missing file: <pattern>`, `unexpected file: <name>`,
`missing directory: <pattern>`, `unexpected directory: <name>`. -/
inductive Diag where
  | missingFile (pat : String) : Diag
  | unexpectedFile (name : String) : Diag
  | missingDir (pat : String) : Diag
  | unexpectedDir (name : String) : Diag
deriving DecidableEq, Repr

/-! ## Glob matching (`fnmatch.fnmatch` with POSIX `normcase`)

`fnmatch.translate` turns a pattern into a regular expression matched
against the whole name: `*` becomes `.*`, `?` becomes `.`, `[...]`
becomes a character class (leading `!` negates; a `]` directly after the
opening `[` or `[!` is a literal member; an unterminated `[` is a literal
`[`; `a-b` inside a class is a codepoint range), every other character is
matched literally. -/

/-- Scan up to the first `]` in the chars after the class opener, returning
the class content and the remainder of the pattern; `none` when the class
is unterminated. -/
def findClose : List Char → Option (List Char × List Char)
  | [] => none
  | c :: cs =>
    if c = ']' then some ([], cs)
    else (findClose cs).map (fun r => (c :: r.1, r.2))

/-- Parse a character class: `cs` is the pattern after the `[`. Returns
(negated?, content, rest of pattern); `none` when there is no closing `]`,
in which case `fnmatch.translate` treats the `[` as a literal. A leading
`!` negates; a `]` in first content position is a literal member. -/
def parseClass (cs : List Char) : Option (Bool × List Char × List Char) :=
  match cs with
  | '!' :: cs1 =>
    match cs1 with
    | ']' :: t => (findClose t).map (fun r => (true, ']' :: r.1, r.2))
    | _ => (findClose cs1).map (fun r => (true, r.1, r.2))
  | _ =>
    match cs with
    | ']' :: t => (findClose t).map (fun r => (false, ']' :: r.1, r.2))
    | _ => (findClose cs).map (fun r => (false, r.1, r.2))

/-- Interpret class content as regex class items: `a-b` is a codepoint
range, any other char a singleton; a trailing `-` is a literal. -/
def classItems : List Char → List (Char × Char)
  | a :: '-' :: b :: rest => (a, b) :: classItems rest
  | a :: rest => (a, a) :: classItems rest
  | [] => []

/-- Membership of a char in the parsed class content. -/
def inClass (content : List Char) (c : Char) : Bool :=
  (classItems content).any (fun r => r.1 ≤ c ∧ c ≤ r.2)

theorem findClose_rest_length_lt :
    ∀ cs content rest, findClose cs = some (content, rest) →
      rest.length < cs.length := by
  intro cs
  induction cs with
  | nil => intro _ _ h; simp [findClose] at h
  | cons c cs ih =>
    intro content rest h
    simp only [findClose] at h
    split at h
    · simp only [Option.some.injEq, Prod.mk.injEq] at h
      simp [← h.2]
    · cases hfc : findClose cs with
      | none => rw [hfc] at h; simp at h
      | some r =>
        obtain ⟨c1, r1⟩ := r
        rw [hfc] at h
        simp only [Option.map_some', Option.some.injEq, Prod.mk.injEq] at h
        have hlt := ih c1 r1 hfc
        simp only [← h.2, List.length_cons]
        omega

theorem map_findClose_shrinks {X : List Char} {f : List Char × List Char → Bool × List Char × List Char}
    (hf : ∀ r, (f r).2.2 = r.2) {neg : Bool} {content rest : List Char}
    (h : (findClose X).map f = some (neg, content, rest)) : rest.length < X.length := by
  cases hfc : findClose X with
  | none => rw [hfc] at h; simp at h
  | some r =>
    obtain ⟨c1, r1⟩ := r
    rw [hfc] at h
    simp only [Option.map_some', Option.some.injEq] at h
    have hlt := findClose_rest_length_lt X c1 r1 hfc
    have h2 : rest = (f (c1, r1)).2.2 := by rw [h]
    rw [h2, hf]
    exact hlt

theorem parseClass_rest_length_lt (cs : List Char) (neg : Bool) (content rest : List Char)
    (h : parseClass cs = some (neg, content, rest)) : rest.length < cs.length := by
  unfold parseClass at h
  split at h
  all_goals split at h
  all_goals
    have hlt := map_findClose_shrinks (fun r => rfl) h
  all_goals first
    | omega
    | (simp only [List.length_cons]; omega)

/-- Whole-name glob matching: `globMatch pat name` holds when the regex
`fnmatch.translate` builds from `pat` matches all of `name`. -/
def globMatch : List Char → List Char → Bool
  | [], n => n.isEmpty
  | '*' :: ps, n =>
    globMatch ps n ||
      (match n with
       | [] => false
       | _ :: n' => globMatch ('*' :: ps) n')
  | '?' :: ps, n =>
    (match n with
     | [] => false
     | _ :: n' => globMatch ps n')
  | '[' :: ps, n =>
    (match hp : parseClass ps with
     | some r =>
       (match n with
        | [] => false
        | c :: n' => (inClass r.2.1 c != r.1) && globMatch r.2.2 n')
     | none =>
       (match n with
        | c :: n' => ('[' = c) && globMatch ps n'
        | [] => false))
  | p :: ps, n =>
    (match n with
     | c :: n' => (p = c) && globMatch ps n'
     | [] => false)
termination_by ps n => (ps.length, n.length)
decreasing_by
  all_goals simp_wf
  all_goals first
    | exact Prod.Lex.right _ (by simp)
    | exact Prod.Lex.left _ _ (by simp)
    | exact Prod.Lex.left _ _ (by
        have := parseClass_rest_length_lt ps r.1 r.2.1 r.2.2 (by simp [hp])
        omega)

/-- Python `fnmatch.fnmatch(name, pat)` under POSIX `os.path.normcase`
(the identity), i.e. `fnmatchcase`: match `name` against the glob `pat`. -/
def fnmatch (name pat : String) : Bool :=
  globMatch pat.data name.data

/-- Source `get_files_and_dirs`: list the directory, then split the entries
into those `is_file` and those `is_dir`. A raised `OSError` (unlistable
path) is `Except.error` carrying the path. -/
def get_files_and_dirs (fs : FS) (dir : String) : Except String (List String × List String) :=
  match fs dir with
  | none => Except.error dir
  | some paths =>
    let files := (paths.filter (fun p => p.2 = EntryKind.file)).map Prod.fst
    let dirs := (paths.filter (fun p => p.2 = EntryKind.dir)).map Prod.fst
    Except.ok (files, dirs)

/-! ## The four level checks and the recursive validator

Each Python loop is embedded as structural recursion over the iterated
list; the boolean is the accumulated `result` variable and the `List Diag`
collects the `logging.error` calls in emission order. -/

/-- Source `validate_required_file_structures`: for each non-optional file
pattern, search `files` for a match; when none is found, log
`missing file: <pattern>` and set the result to `False`. -/
def validate_required_file_structures (files : List String) :
    List FileStructure → Bool × List Diag
  | [] => (true, [])
  | file_structure :: rest =>
    if file_structure.is_optional then
      validate_required_file_structures files rest
    else if files.any (fun file => fnmatch file file_structure.pattern) then
      validate_required_file_structures files rest
    else
      let r := validate_required_file_structures files rest
      (false, Diag.missingFile file_structure.pattern :: r.2)

/-- Source `validate_files_match_file_structures`: for each actual file
name, search the file patterns for a match; when none is found, log
`unexpected file: <name>` and set the result to `False`. -/
def validate_files_match_file_structures :
    List String → List FileStructure → Bool × List Diag
  | [], _ => (true, [])
  | file :: rest, file_structures =>
    if file_structures.any (fun file_structure => fnmatch file file_structure.pattern) then
      validate_files_match_file_structures rest file_structures
    else
      let r := validate_files_match_file_structures rest file_structures
      (false, Diag.unexpectedFile file :: r.2)

/-- Source `validate_dirs_match_dir_structures`: for each actual directory
name, search the directory patterns for a match; when none is found, log
`unexpected directory: <name>` and set the result to `False`. -/
def validate_dirs_match_dir_structures :
    List String → List DirStructure → Bool × List Diag
  | [], _ => (true, [])
  | dir :: rest, dir_structures =>
    if dir_structures.any (fun dir_structure => fnmatch dir dir_structure.pattern) then
      validate_dirs_match_dir_structures rest dir_structures
    else
      let r := validate_dirs_match_dir_structures rest dir_structures
      (false, Diag.unexpectedDir dir :: r.2)

mutual

/-- Source `validate_required_dir_structures`: for each non-optional
directory pattern, scan `dirs` in order for the first matching name
(the inner loop `break`s at the first match).  On a match the nested
structure is recursively validated — against the bare name `dir`, not a
path joined with the parent, exactly as in line 135
`validate_dir_structure(dir_structure, dir)` — and the recursive boolean
result is discarded, though its logs are emitted and an exception from it
propagates.  When no name matches, log `missing directory: <pattern>` and
set the result to `False`. -/
def validate_required_dir_structures (fs : FS) (dirs : List String) :
    List DirStructure → Except String (Bool × List Diag)
  | [] => Except.ok (true, [])
  | dir_structure :: rest =>
    if dir_structure.is_optional then
      validate_required_dir_structures fs dirs rest
    else
      match dirs.find? (fun dir => fnmatch dir dir_structure.pattern) with
      | some dir =>
        match validate_dir_structure fs dir_structure dir with
        | Except.error e => Except.error e
        | Except.ok child =>
          match validate_required_dir_structures fs dirs rest with
          | Except.error e => Except.error e
          | Except.ok r => Except.ok (r.1, child.2 ++ r.2)
      | none =>
        match validate_required_dir_structures fs dirs rest with
        | Except.error e => Except.error e
        | Except.ok r => Except.ok (false, Diag.missingDir dir_structure.pattern :: r.2)
termination_by l => sizeOf l
decreasing_by
  all_goals simp_wf
  all_goals omega

/-- Source `validate_dir_structure`: list the directory, then run the four
checks in order (required files, file coverage, required directories —
which also recurses — and directory coverage), and-ing the four booleans
into `result`; diagnostics are the four checks' logs in that order.  An
`OSError` raised by `os.listdir` (modelled by `fs dir = none`) or inside
the recursion propagates. -/
def validate_dir_structure (fs : FS) (dir_structure : DirStructure) (dir : String) :
    Except String (Bool × List Diag) :=
  match get_files_and_dirs fs dir with
  | Except.error e => Except.error e
  | Except.ok fd =>
    let p1 := validate_required_file_structures fd.1 dir_structure.files
    let p2 := validate_files_match_file_structures fd.1 dir_structure.files
    match validate_required_dir_structures fs fd.2 dir_structure.sub_dirs with
    | Except.error e => Except.error e
    | Except.ok p3 =>
      let p4 := validate_dirs_match_dir_structures fd.2 dir_structure.sub_dirs
      Except.ok (p1.1 && p2.1 && p3.1 && p4.1, p1.2 ++ p2.2 ++ p3.2 ++ p4.2)
termination_by sizeOf dir_structure
decreasing_by
  simp_wf
  cases dir_structure
  simp
  omega

end

/-! ## Concrete inputs exhibiting the recursion defects -/

/-- A filesystem whose root directory `root` holds one subdirectory `sub`;
`sub` is empty.  The key `sub` is reachable as a bare name because the
recursion of `validate_required_dir_structures` passes the bare entry name
as the next path. -/
def fsC1 : FS := fun p =>
  if p = "root" then some [("sub", EntryKind.dir)]
  else if p = "sub" then some []
  else none

/-- Schema: the root must contain a directory `sub`, which must contain a
file `a.txt`. -/
def schemaC1 : DirStructure := ⟨"root", false, [⟨"sub", false, [], [⟨"a.txt", false⟩]⟩], []⟩

/-- Same schema but with the `sub` directory pattern marked optional. -/
def schemaC1opt : DirStructure := ⟨"root", false, [⟨"sub", true, [], [⟨"a.txt", false⟩]⟩], []⟩

/-- A filesystem where the directory `/r` holds a subdirectory `s` whose
joined path `/r/s` is listable, but the bare name `s` is not a listable
path. -/
def fsJoin : FS := fun p =>
  if p = "/r" then some [("s", EntryKind.dir)]
  else if p = "/r/s" then some []
  else none

/-- Schema for `fsJoin`: the root must contain a directory `s`. -/
def schemaJoin : DirStructure := ⟨"r", false, [⟨"s", false, [], []⟩], []⟩

/-- A filesystem whose root holds two subdirectories `a1` and `a2`, both
empty (and both reachable as bare names). -/
def fsTwo : FS := fun p =>
  if p = "root" then some [("a1", EntryKind.dir), ("a2", EntryKind.dir)]
  else if p = "a1" then some []
  else if p = "a2" then some []
  else none

/-- Schema for `fsTwo`: one required directory pattern `a*` whose nested
schema requires a file `x.txt`. -/
def schemaTwo : DirStructure := ⟨"root", false, [⟨"a*", false, [], [⟨"x.txt", false⟩]⟩], []⟩

/-- C1: the claim says the success flag of `validate_dir_structure` is true
iff no violation was recorded at that level or in any descendant, and that
a parent validation fails whenever a child validation fails.  The code
discards the boolean of the recursive call (line 135), so on `fsC1` /
`schemaC1` the child validation of `sub` fails — it records
`missing file: a.txt` — yet the parent run returns success `true` with
that very diagnostic in its output, refuting both directions of the
claim at this input. -/
theorem child_failure_not_propagated :
    validate_dir_structure fsC1 schemaC1 "root" =
      Except.ok (true, [Diag.missingFile "a.txt"]) ∧
    validate_dir_structure fsC1 ⟨"sub", false, [], [⟨"a.txt", false⟩]⟩ "sub" =
      Except.ok (false, [Diag.missingFile "a.txt"]) := by
  constructor <;>
    simp [validate_dir_structure, validate_required_dir_structures,
      validate_required_file_structures, validate_files_match_file_structures,
      validate_dirs_match_dir_structures, get_files_and_dirs, fnmatch, globMatch,
      fsC1, schemaC1]

/-- C2: the claim says every actual subdirectory name matching some
declared pattern (required or optional) is recursively validated against
the joined path.  Three divergences of the code, each at a concrete input:
(1) on `fsC1` with the matching pattern `sub` marked optional, the run
reports success with no diagnostics — the matched subdirectory `sub` was
never recursed into, else `missing file: a.txt` would appear;
(2) on `fsJoin` the recursion looks up the bare name `s` instead of the
joined path `/r/s`, so the run aborts with an error naming `s` although
`/r/s` is listable;
(3) on `fsTwo` both `a1` and `a2` match the required pattern `a*`, but
only the first match is recursed into, so `missing file: x.txt` is
reported once instead of once per matching subdirectory. -/
theorem recursion_divergences :
    validate_dir_structure fsC1 schemaC1opt "root" = Except.ok (true, []) ∧
    validate_dir_structure fsJoin schemaJoin "/r" = Except.error "s" ∧
    validate_dir_structure fsTwo schemaTwo "root" =
      Except.ok (true, [Diag.missingFile "x.txt"]) := by
  refine ⟨?_, ?_, ?_⟩ <;>
    simp [validate_dir_structure, validate_required_dir_structures,
      validate_required_file_structures, validate_files_match_file_structures,
      validate_dirs_match_dir_structures, get_files_and_dirs, fnmatch, globMatch,
      fsC1, schemaC1opt, fsJoin, schemaJoin, fsTwo, schemaTwo]

/-! ## Characterization of the diagnostics of each check -/

theorem vrfs_diags_eq (files : List String) (file_structures : List FileStructure) :
    (validate_required_file_structures files file_structures).2 =
      (file_structures.filter (fun s => !s.is_optional &&
        !files.any (fun file => fnmatch file s.pattern))).map
        (fun s => Diag.missingFile s.pattern) := by
  induction file_structures with
  | nil => rfl
  | cons s rest ih =>
    by_cases ho : s.is_optional = true
    · simp [validate_required_file_structures, ho, ih]
    · by_cases hm : files.any (fun file => fnmatch file s.pattern) = true
      · simp [validate_required_file_structures, ho, hm, ih]
      · simp [validate_required_file_structures, ho, hm, ih]

theorem vfmfs_diags_eq (files : List String) (file_structures : List FileStructure) :
    (validate_files_match_file_structures files file_structures).2 =
      (files.filter (fun file =>
        !file_structures.any (fun s => fnmatch file s.pattern))).map
        Diag.unexpectedFile := by
  induction files with
  | nil => rfl
  | cons f rest ih =>
    by_cases hm : file_structures.any (fun s => fnmatch f s.pattern) = true
    · simp [validate_files_match_file_structures, hm, ih]
    · simp [validate_files_match_file_structures, hm, ih]

theorem vdmds_diags_eq (dirs : List String) (dir_structures : List DirStructure) :
    (validate_dirs_match_dir_structures dirs dir_structures).2 =
      (dirs.filter (fun dir =>
        !dir_structures.any (fun s => fnmatch dir s.pattern))).map
        Diag.unexpectedDir := by
  induction dirs with
  | nil => rfl
  | cons d rest ih =>
    by_cases hm : dir_structures.any (fun s => fnmatch d s.pattern) = true
    · simp [validate_dirs_match_dir_structures, hm, ih]
    · simp [validate_dirs_match_dir_structures, hm, ih]

theorem vrds_diags_eq (fs : FS) (dirs : List String) :
    ∀ (l : List DirStructure) (b : Bool) (d : List Diag),
      validate_required_dir_structures fs dirs l = Except.ok (b, d) →
      d = l.flatMap (fun s =>
        if s.is_optional then []
        else
          match dirs.find? (fun n => fnmatch n s.pattern) with
          | some n =>
            match validate_dir_structure fs s n with
            | Except.ok child => child.2
            | Except.error _ => []
          | none => [Diag.missingDir s.pattern]) := by
  intro l
  induction l with
  | nil =>
    intro b d h
    simp [validate_required_dir_structures] at h
    simp [← h.2]
  | cons s rest ih =>
    intro b d h
    by_cases ho : s.is_optional = true
    · simp only [validate_required_dir_structures, ho, if_true] at h
      simp [List.flatMap_cons, ho, ← ih b d h]
    · simp only [validate_required_dir_structures, ho, Bool.false_eq_true,
        if_false] at h
      split at h
      · rename_i dir hf
        split at h
        · exact Except.noConfusion h
        · rename_i child hv
          split at h
          · exact Except.noConfusion h
          · rename_i r hr
            simp only [Except.ok.injEq, Prod.mk.injEq] at h
            have hrest := ih r.1 r.2 hr
            simp [List.flatMap_cons, ho, hf, hv, ← h.2, hrest]
      · rename_i hf
        split at h
        · exact Except.noConfusion h
        · rename_i r hr
          simp only [Except.ok.injEq, Prod.mk.injEq] at h
          have hrest := ih r.1 r.2 hr
          simp [List.flatMap_cons, ho, hf, ← h.2, hrest]

/-- C3: the diagnostics of the required-files check are exactly one
`missing file` record per non-optional file pattern that no actual file
name matches — in declaration order, none for optional patterns and none
for matched ones; and the diagnostics of the required-directories check
consist, per pattern in declaration order, of nothing for an optional
pattern, of the recursive child run's diagnostics for a matched required
pattern, and of exactly one `missing directory` record for an unmatched
required pattern. -/
theorem missing_diag_per_unmatched_required_pattern
    (files : List String) (file_structures : List FileStructure)
    (fs : FS) (dirs : List String) (dir_structures : List DirStructure)
    (b : Bool) (d : List Diag)
    (h : validate_required_dir_structures fs dirs dir_structures = Except.ok (b, d)) :
    (validate_required_file_structures files file_structures).2 =
      (file_structures.filter (fun s => !s.is_optional &&
        !files.any (fun file => fnmatch file s.pattern))).map
        (fun s => Diag.missingFile s.pattern)
    ∧ d = dir_structures.flatMap (fun s =>
        if s.is_optional then []
        else
          match dirs.find? (fun n => fnmatch n s.pattern) with
          | some n =>
            match validate_dir_structure fs s n with
            | Except.ok child => child.2
            | Except.error _ => []
          | none => [Diag.missingDir s.pattern]) :=
  ⟨vrfs_diags_eq files file_structures,
   vrds_diags_eq fs dirs dir_structures b d h⟩

/-- C4: the diagnostics of the file coverage check are exactly one
`unexpected file` record per actual file name matched by no declared file
pattern (required or optional), in listing order and none for matched
names; symmetrically for the directory coverage check. -/
theorem unexpected_diag_per_unmatched_entry
    (files dirs : List String) (file_structures : List FileStructure)
    (dir_structures : List DirStructure) :
    (validate_files_match_file_structures files file_structures).2 =
      (files.filter (fun file =>
        !file_structures.any (fun s => fnmatch file s.pattern))).map
        Diag.unexpectedFile
    ∧ (validate_dirs_match_dir_structures dirs dir_structures).2 =
      (dirs.filter (fun dir =>
        !dir_structures.any (fun s => fnmatch dir s.pattern))).map
        Diag.unexpectedDir :=
  ⟨vfmfs_diags_eq files file_structures, vdmds_diags_eq dirs dir_structures⟩

/-- Witness for C3: at a concrete input the hypothesis holds and the
characterizations evaluate — the unmatched required file pattern
`README.md` and the unmatched required directory pattern `docs` each
yield exactly one missing diagnostic. -/
theorem missing_diag_per_unmatched_required_pattern_witness :
    validate_required_dir_structures (fun _ => none) []
      [⟨"docs", false, [], []⟩] = Except.ok (false, [Diag.missingDir "docs"]) ∧
    ((validate_required_file_structures [] [⟨"README.md", false⟩]).2 =
      ([(⟨"README.md", false⟩ : FileStructure)].filter (fun s => !s.is_optional &&
        !List.any [] (fun file => fnmatch file s.pattern))).map
        (fun s => Diag.missingFile s.pattern)
    ∧ [Diag.missingDir "docs"] =
      [(⟨"docs", false, [], []⟩ : DirStructure)].flatMap (fun s =>
        if s.is_optional then []
        else
          match List.find? (fun n => fnmatch n s.pattern) [] with
          | some n =>
            match validate_dir_structure (fun _ => none) s n with
            | Except.ok child => child.2
            | Except.error _ => []
          | none => [Diag.missingDir s.pattern])) :=
  ⟨by simp [validate_required_dir_structures, List.find?],
   missing_diag_per_unmatched_required_pattern [] [⟨"README.md", false⟩]
     (fun _ => none) [] [⟨"docs", false, [], []⟩] false [Diag.missingDir "docs"]
     (by simp [validate_required_dir_structures, List.find?])⟩

/-- C5: when `os.listdir` cannot list a path (`fs p = none`: the path does
not exist, is not a directory, or is unreadable), `get_files_and_dirs`
raises — it returns the error and never an `ok` pair, in particular it
never reports the path as an empty directory — and the error propagates
through `validate_dir_structure` to the caller. -/
theorem unreadable_path_error_propagates (fs : FS) (dir_structure : DirStructure)
    (p : String) (h : fs p = none) :
    get_files_and_dirs fs p = Except.error p ∧
    (∀ r, get_files_and_dirs fs p ≠ Except.ok r) ∧
    validate_dir_structure fs dir_structure p = Except.error p := by
  have hg : get_files_and_dirs fs p = Except.error p := by
    unfold get_files_and_dirs
    rw [h]
  refine ⟨hg, ?_, ?_⟩
  · intro r hc
    rw [hg] at hc
    exact Except.noConfusion hc
  · simp only [validate_dir_structure, hg]

/-- Witness for C5 at the unlistable path `missing` of the everywhere
unlistable filesystem. -/
theorem unreadable_path_error_propagates_witness :
    (fun _ => none : FS) "missing" = none ∧
    (get_files_and_dirs (fun _ => none) "missing" = Except.error "missing" ∧
     (∀ r, get_files_and_dirs (fun _ => none) "missing" ≠ Except.ok r) ∧
     validate_dir_structure (fun _ => none) ⟨"root", false, [], []⟩ "missing" =
       Except.error "missing") :=
  ⟨rfl, unreadable_path_error_propagates (fun _ => none) ⟨"root", false, [], []⟩
    "missing" rfl⟩

/-- C6: structural violations never abort the run.  With the level listing
available and the required-directories check (the only level check that
can raise, via its recursion) completing, `validate_dir_structure` still
completes with an `ok` outcome although the required-files check has
already failed, and the outcome carries the diagnostics of all four
checks concatenated in order — the earlier failure suppresses nothing. -/
theorem violations_accumulate_across_checks
    (fs : FS) (dir_structure : DirStructure) (p : String)
    (files dirs : List String) (b3 : Bool) (d3 : List Diag)
    (hls : get_files_and_dirs fs p = Except.ok (files, dirs))
    (hch : validate_required_dir_structures fs dirs dir_structure.sub_dirs =
      Except.ok (b3, d3))
    (hfail : (validate_required_file_structures files dir_structure.files).1 = false) :
    validate_dir_structure fs dir_structure p =
      Except.ok (false,
        (validate_required_file_structures files dir_structure.files).2 ++
        (validate_files_match_file_structures files dir_structure.files).2 ++
        d3 ++
        (validate_dirs_match_dir_structures dirs dir_structure.sub_dirs).2) := by
  simp only [validate_dir_structure, hls, hch]
  simp [hfail]

/-- Witness for C6: the root holds only `x.md` while the schema requires
`*.txt`; the required-files check fails, yet the run completes and both
this failure's diagnostic and the coverage check's `unexpected file: x.md`
are reported. -/
theorem violations_accumulate_across_checks_witness :
    get_files_and_dirs
        (fun p => if p = "root" then some [("x.md", EntryKind.file)] else none)
        "root" = Except.ok (["x.md"], []) ∧
    validate_required_dir_structures
        (fun p => if p = "root" then some [("x.md", EntryKind.file)] else none)
        [] (⟨"root", false, [], [⟨"*.txt", false⟩]⟩ : DirStructure).sub_dirs =
      Except.ok (true, []) ∧
    (validate_required_file_structures ["x.md"]
        (⟨"root", false, [], [⟨"*.txt", false⟩]⟩ : DirStructure).files).1 = false ∧
    validate_dir_structure
        (fun p => if p = "root" then some [("x.md", EntryKind.file)] else none)
        ⟨"root", false, [], [⟨"*.txt", false⟩]⟩ "root" =
      Except.ok (false,
        (validate_required_file_structures ["x.md"]
          (⟨"root", false, [], [⟨"*.txt", false⟩]⟩ : DirStructure).files).2 ++
        (validate_files_match_file_structures ["x.md"]
          (⟨"root", false, [], [⟨"*.txt", false⟩]⟩ : DirStructure).files).2 ++
        [] ++
        (validate_dirs_match_dir_structures []
          (⟨"root", false, [], [⟨"*.txt", false⟩]⟩ : DirStructure).sub_dirs).2) :=
  have hls : get_files_and_dirs
      (fun p => if p = "root" then some [("x.md", EntryKind.file)] else none)
      "root" = Except.ok (["x.md"], []) := by
    simp [get_files_and_dirs]
  have hch : validate_required_dir_structures
      (fun p => if p = "root" then some [("x.md", EntryKind.file)] else none)
      [] (⟨"root", false, [], [⟨"*.txt", false⟩]⟩ : DirStructure).sub_dirs =
      Except.ok (true, []) := by
    simp [validate_required_dir_structures]
  have hfail : (validate_required_file_structures ["x.md"]
      (⟨"root", false, [], [⟨"*.txt", false⟩]⟩ : DirStructure).files).1 = false := by
    simp [validate_required_file_structures, fnmatch, globMatch]
  ⟨hls, hch, hfail,
   violations_accumulate_across_checks _ _ "root" ["x.md"] [] true [] hls hch hfail⟩

/-! ## Glob semantics lemmas -/

theorem globMatch_star (n : List Char) : globMatch ['*'] n = true := by
  induction n with
  | nil => simp [globMatch]
  | cons c n' ih => simp [globMatch, ih]

theorem globMatch_qmark (n : List Char) : globMatch ['?'] n = true ↔ n.length = 1 := by
  cases n with
  | nil => simp [globMatch]
  | cons c n' =>
    cases n' with
    | nil => simp [globMatch]
    | cons c2 n'' => simp [globMatch]

theorem globMatch_abc_class (c : Char) :
    globMatch ['[', 'a', '-', 'c', ']'] [c] = true ↔ ('a' ≤ c ∧ c ≤ 'c') := by
  have hc : parseClass ['a', '-', 'c', ']'] = some (false, ['a', '-', 'c'], []) := rfl
  simp only [globMatch]
  split
  · rename_i r hp
    rw [hc] at hp
    injection hp with hp
    subst hp
    simp [inClass, classItems, globMatch, Bool.and_eq_true, decide_eq_true_iff]
  · rename_i hp
    rw [hc] at hp
    exact Option.noConfusion hp

theorem globMatch_cons_lit (p : Char) (ps ns : List Char)
    (hstar : p ≠ '*') (hq : p ≠ '?') (hbr : p ≠ '[') :
    globMatch (p :: ps) ns =
      match ns with
      | c :: n' => (p = c) && globMatch ps n'
      | [] => false := by
  cases ns with
  | nil => exact globMatch.eq_9 p ps hstar hq hbr
  | cons c n' => exact globMatch.eq_8 p ps c n' hstar hq hbr

theorem globMatch_literal :
    ∀ ps ns : List Char, (∀ ch ∈ ps, ch ≠ '*' ∧ ch ≠ '?' ∧ ch ≠ '[') →
      (globMatch ps ns = true ↔ ps = ns) := by
  intro ps
  induction ps with
  | nil =>
    intro ns _
    cases ns <;> simp [globMatch]
  | cons p ps' ih =>
    intro ns hlit
    obtain ⟨hstar, hq, hbr⟩ := hlit p (List.mem_cons_self _ _)
    have hrest := fun ch hch => hlit ch (List.mem_cons_of_mem _ hch)
    rw [globMatch_cons_lit p ps' ns hstar hq hbr]
    cases ns with
    | nil => simp
    | cons c n' =>
      simp [Bool.and_eq_true, decide_eq_true_iff, ih n' hrest, List.cons.injEq]

/-- C7 counterexample: the names `ab` and `aB` differ only in the case of
their second letter and the pattern `a?` contains the literal letter `a`,
yet `fnmatch` matches both of them — the `?` covers the position where the
case differs — so it is not true that every pattern containing literal
letters matches exactly one name of such a pair. -/
theorem case_pair_matched_by_literal_letter_pattern :
    fnmatch "ab" "a?" = true ∧ fnmatch "aB" "a?" = true ∧ ("ab" : String) ≠ "aB" :=
  ⟨by simp [fnmatch, globMatch], by simp [fnmatch, globMatch], by decide⟩

/-- C7 amended: matching is case-sensitive shell-glob matching — `*`
matches any run of characters, `?` matches exactly one character,
character classes are supported (shown for `[a-c]`), and a pattern
consisting solely of literal characters matches exactly the identical
name, hence it never matches both members of a pair of distinct names;
in particular literal letters never match the opposite-case letter. -/
theorem glob_matching_semantics :
    (∀ n : String, fnmatch n "*" = true) ∧
    (∀ n : String, (fnmatch n "?" = true ↔ n.length = 1)) ∧
    (∀ c : Char, (fnmatch ⟨[c]⟩ "[a-c]" = true ↔ ('a' ≤ c ∧ c ≤ 'c'))) ∧
    (∀ pat n : String, (∀ ch ∈ pat.data, ch ≠ '*' ∧ ch ≠ '?' ∧ ch ≠ '[') →
      (fnmatch n pat = true ↔ n = pat)) ∧
    (∀ pat n1 n2 : String, (∀ ch ∈ pat.data, ch ≠ '*' ∧ ch ≠ '?' ∧ ch ≠ '[') →
      n1 ≠ n2 → ¬(fnmatch n1 pat = true ∧ fnmatch n2 pat = true)) := by
  have hlit : ∀ pat n : String, (∀ ch ∈ pat.data, ch ≠ '*' ∧ ch ≠ '?' ∧ ch ≠ '[') →
      (fnmatch n pat = true ↔ n = pat) := by
    intro pat n h
    rw [show fnmatch n pat = globMatch pat.data n.data from rfl,
      globMatch_literal pat.data n.data h]
    constructor
    · intro hd; exact (String.ext hd.symm)
    · intro hd; exact congrArg String.data hd.symm
  refine ⟨?_, ?_, ?_, hlit, ?_⟩
  · intro n; exact globMatch_star n.data
  · intro n; exact globMatch_qmark n.data
  · intro c; exact globMatch_abc_class c
  · intro pat n1 n2 h hne hboth
    exact hne (((hlit pat n1 h).mp hboth.1).trans ((hlit pat n2 h).mp hboth.2).symm)

/-- Witness for the amended C7 at concrete inputs: the all-literal pattern
`abc` matches only the identical name, and never both of the
case-differing pair `abc` / `ABC`. -/
theorem glob_matching_semantics_witness :
    (fnmatch "abc" "abc" = true ↔ ("abc" : String) = "abc") ∧
    ¬(fnmatch "abc" "abc" = true ∧ fnmatch "ABC" "abc" = true) :=
  ⟨glob_matching_semantics.2.2.2.1 "abc" "abc" (by decide),
   glob_matching_semantics.2.2.2.2 "abc" "abc" "ABC" (by decide) (by decide)⟩

/-! ## Schema-object threading

Python passes the `FileStructure` / `DirStructure` dataclass objects by
reference, so the validator could in principle mutate them.  The `_st`
variants below re-translate each function threading the schema objects
explicitly: next to its result, each function returns the state of the
schema objects it received as they stand when it returns.  The source
contains no assignment to any dataclass attribute and no mutation of any
schema list, so the translation rebuilds each object from the same
(read-only) fields; `validate_dir_structure_st_eq` proves the threaded
translation returns the schema unchanged next to the direct outcome.
The filesystem needs no threading: the only OS calls are `os.listdir`,
`is_file` and `is_dir`, all read-only. -/

/-- Threaded `validate_required_file_structures`: also returns the state
of the `file_structures` objects at return. -/
def validate_required_file_structures_st (files : List String) :
    List FileStructure → (Bool × List Diag) × List FileStructure
  | [] => ((true, []), [])
  | file_structure :: rest =>
    if file_structure.is_optional then
      let r := validate_required_file_structures_st files rest
      (r.1, file_structure :: r.2)
    else if files.any (fun file => fnmatch file file_structure.pattern) then
      let r := validate_required_file_structures_st files rest
      (r.1, file_structure :: r.2)
    else
      let r := validate_required_file_structures_st files rest
      ((false, Diag.missingFile file_structure.pattern :: r.1.2), file_structure :: r.2)

/-- Threaded `validate_files_match_file_structures`. -/
def validate_files_match_file_structures_st :
    List String → List FileStructure → (Bool × List Diag) × List FileStructure
  | [], file_structures => ((true, []), file_structures)
  | file :: rest, file_structures =>
    if file_structures.any (fun s => fnmatch file s.pattern) then
      validate_files_match_file_structures_st rest file_structures
    else
      let r := validate_files_match_file_structures_st rest file_structures
      ((false, Diag.unexpectedFile file :: r.1.2), r.2)

/-- Threaded `validate_dirs_match_dir_structures`. -/
def validate_dirs_match_dir_structures_st :
    List String → List DirStructure → (Bool × List Diag) × List DirStructure
  | [], dir_structures => ((true, []), dir_structures)
  | dir :: rest, dir_structures =>
    if dir_structures.any (fun s => fnmatch dir s.pattern) then
      validate_dirs_match_dir_structures_st rest dir_structures
    else
      let r := validate_dirs_match_dir_structures_st rest dir_structures
      ((false, Diag.unexpectedDir dir :: r.1.2), r.2)

mutual

/-- Threaded `validate_required_dir_structures`: the recursive call's
returned child object is put back at its position in the list. -/
def validate_required_dir_structures_st (fs : FS) (dirs : List String) :
    List DirStructure → Except String ((Bool × List Diag) × List DirStructure)
  | [] => Except.ok ((true, []), [])
  | dir_structure :: rest =>
    if dir_structure.is_optional then
      match validate_required_dir_structures_st fs dirs rest with
      | Except.error e => Except.error e
      | Except.ok r => Except.ok (r.1, dir_structure :: r.2)
    else
      match dirs.find? (fun dir => fnmatch dir dir_structure.pattern) with
      | some dir =>
        match validate_dir_structure_st fs dir_structure dir with
        | Except.error e => Except.error e
        | Except.ok child =>
          match validate_required_dir_structures_st fs dirs rest with
          | Except.error e => Except.error e
          | Except.ok r => Except.ok ((r.1.1, child.1.2 ++ r.1.2), child.2 :: r.2)
      | none =>
        match validate_required_dir_structures_st fs dirs rest with
        | Except.error e => Except.error e
        | Except.ok r =>
          Except.ok ((false, Diag.missingDir dir_structure.pattern :: r.1.2),
            dir_structure :: r.2)
termination_by l => sizeOf l
decreasing_by
  all_goals simp_wf
  all_goals omega

/-- Threaded `validate_dir_structure`: the object state produced by each
check feeds the next statement, and the node is rebuilt from its (never
assigned) fields at return. -/
def validate_dir_structure_st (fs : FS) (dir_structure : DirStructure) (dir : String) :
    Except String ((Bool × List Diag) × DirStructure) :=
  match get_files_and_dirs fs dir with
  | Except.error e => Except.error e
  | Except.ok fd =>
    let p1 := validate_required_file_structures_st fd.1 dir_structure.files
    let p2 := validate_files_match_file_structures_st fd.1 p1.2
    match validate_required_dir_structures_st fs fd.2 dir_structure.sub_dirs with
    | Except.error e => Except.error e
    | Except.ok p3 =>
      let p4 := validate_dirs_match_dir_structures_st fd.2 p3.2
      Except.ok ((p1.1.1 && p2.1.1 && p3.1.1 && p4.1.1,
                  p1.1.2 ++ p2.1.2 ++ p3.1.2 ++ p4.1.2),
        { pattern := dir_structure.pattern, is_optional := dir_structure.is_optional,
          sub_dirs := p4.2, files := p2.2 })
termination_by sizeOf dir_structure
decreasing_by
  simp_wf
  cases dir_structure
  simp
  omega

end

theorem vrfs_st_eq (files : List String) (l : List FileStructure) :
    validate_required_file_structures_st files l =
      (validate_required_file_structures files l, l) := by
  induction l with
  | nil => rfl
  | cons s rest ih =>
    by_cases ho : s.is_optional = true
    · simp [validate_required_file_structures_st, validate_required_file_structures,
        ho, ih]
    · by_cases hm : files.any (fun file => fnmatch file s.pattern) = true
      · simp [validate_required_file_structures_st, validate_required_file_structures,
          ho, hm, ih]
      · simp [validate_required_file_structures_st, validate_required_file_structures,
          ho, hm, ih]

theorem vfmfs_st_eq (files : List String) (l : List FileStructure) :
    validate_files_match_file_structures_st files l =
      (validate_files_match_file_structures files l, l) := by
  induction files with
  | nil => rfl
  | cons f rest ih =>
    by_cases hm : l.any (fun s => fnmatch f s.pattern) = true
    · simp [validate_files_match_file_structures_st, validate_files_match_file_structures,
        hm, ih]
    · simp [validate_files_match_file_structures_st, validate_files_match_file_structures,
        hm, ih]

theorem vdmds_st_eq (dirs : List String) (l : List DirStructure) :
    validate_dirs_match_dir_structures_st dirs l =
      (validate_dirs_match_dir_structures dirs l, l) := by
  induction dirs with
  | nil => rfl
  | cons n rest ih =>
    by_cases hm : l.any (fun s => fnmatch n s.pattern) = true
    · simp [validate_dirs_match_dir_structures_st, validate_dirs_match_dir_structures,
        hm, ih]
    · simp [validate_dirs_match_dir_structures_st, validate_dirs_match_dir_structures,
        hm, ih]

theorem except_map_ok {ε α β : Type} (f : α → β) (a : α) :
    Except.map f (Except.ok a : Except ε α) = Except.ok (f a) := rfl

theorem except_map_error {ε α β : Type} (f : α → β) (e : ε) :
    Except.map f (Except.error e : Except ε α) = Except.error e := rfl

mutual

theorem vrds_st_eq (fs : FS) (dirs : List String) (l : List DirStructure) :
    validate_required_dir_structures_st fs dirs l =
      (validate_required_dir_structures fs dirs l).map (fun out => (out, l)) := by
  cases l with
  | nil =>
    simp [validate_required_dir_structures_st, validate_required_dir_structures,
      except_map_ok]
  | cons s rest =>
    have hrec := vrds_st_eq fs dirs rest
    by_cases ho : s.is_optional = true
    · cases hr : validate_required_dir_structures fs dirs rest with
      | error e =>
        simp [validate_required_dir_structures_st, validate_required_dir_structures,
          ho, hr, hrec, except_map_ok, except_map_error]
      | ok r =>
        simp [validate_required_dir_structures_st, validate_required_dir_structures,
          ho, hr, hrec, except_map_ok, except_map_error]
    · cases hf : dirs.find? (fun n => fnmatch n s.pattern) with
      | some n =>
        have hst := vds_st_eq fs s n
        cases hv : validate_dir_structure fs s n with
        | error e =>
          simp [validate_required_dir_structures_st, validate_required_dir_structures,
            ho, hf, hv, hst, except_map_ok, except_map_error]
        | ok child =>
          cases hr : validate_required_dir_structures fs dirs rest with
          | error e =>
            simp [validate_required_dir_structures_st, validate_required_dir_structures,
              ho, hf, hv, hr, hst, hrec, except_map_ok, except_map_error]
          | ok r =>
            simp [validate_required_dir_structures_st, validate_required_dir_structures,
              ho, hf, hv, hr, hst, hrec, except_map_ok, except_map_error]
      | none =>
        cases hr : validate_required_dir_structures fs dirs rest with
        | error e =>
          simp [validate_required_dir_structures_st, validate_required_dir_structures,
            ho, hf, hr, hrec, except_map_ok, except_map_error]
        | ok r =>
          simp [validate_required_dir_structures_st, validate_required_dir_structures,
            ho, hf, hr, hrec, except_map_ok, except_map_error]
termination_by sizeOf l
decreasing_by
  all_goals simp_wf
  all_goals omega

theorem vds_st_eq (fs : FS) (d : DirStructure) (p : String) :
    validate_dir_structure_st fs d p =
      (validate_dir_structure fs d p).map (fun out => (out, d)) := by
  obtain ⟨pat, opt, subs, fls⟩ := d
  cases hg : get_files_and_dirs fs p with
  | error e =>
    simp [validate_dir_structure_st, validate_dir_structure, hg, except_map_error]
  | ok fd =>
    have hrec := vrds_st_eq fs fd.2 subs
    cases hr : validate_required_dir_structures fs fd.2 subs with
    | error e =>
      simp [validate_dir_structure_st, validate_dir_structure, hg, hr, hrec,
        vrfs_st_eq, vfmfs_st_eq, vdmds_st_eq, except_map_ok, except_map_error]
    | ok p3 =>
      simp [validate_dir_structure_st, validate_dir_structure, hg, hr, hrec,
        vrfs_st_eq, vfmfs_st_eq, vdmds_st_eq, except_map_ok, except_map_error]
termination_by sizeOf d
decreasing_by
  simp_wf
  omega

end

/-- C9: validation never mutates the schema tree: the threaded validator
returns, next to exactly the direct validator's outcome, the schema node
it was given, unchanged as a value — so every field of every node in the
tree (pattern, optional flag, sub_dirs, files) is intact after the run. -/
theorem validator_never_mutates_schema (fs : FS) (dir_structure : DirStructure)
    (dir : String) :
    validate_dir_structure_st fs dir_structure dir =
      (validate_dir_structure fs dir_structure dir).map
        (fun out => (out, dir_structure)) :=
  vds_st_eq fs dir_structure dir

/-- C8: running validate twice against the unchanged filesystem — the
second run starting from the schema state the first run returned — yields
the identical outcome: same success flag, same diagnostics, same final
schema state.  The validator is deterministic, keeps no state across
runs, and only reads the filesystem. -/
theorem validate_idempotent (fs : FS) (dir_structure : DirStructure) (dir : String) :
    (match validate_dir_structure_st fs dir_structure dir with
     | Except.ok r => validate_dir_structure_st fs r.2 dir
     | Except.error e => Except.error e) =
      validate_dir_structure_st fs dir_structure dir := by
  rw [vds_st_eq fs dir_structure dir]
  cases hv : validate_dir_structure fs dir_structure dir with
  | error e => rfl
  | ok out => simp [vds_st_eq, hv, except_map_ok]

/-! ## Entries that are neither files nor directories -/

theorem nodup_fst_mem_unique {α β : Type} {L : List (α × β)}
    (h : (L.map Prod.fst).Nodup) {a : α} {b1 b2 : β}
    (h1 : (a, b1) ∈ L) (h2 : (a, b2) ∈ L) : b1 = b2 := by
  induction L with
  | nil => cases h1
  | cons x t ih =>
    simp only [List.map_cons, List.nodup_cons] at h
    rcases List.mem_cons.mp h1 with he1 | ht1
    · rcases List.mem_cons.mp h2 with he2 | ht2
      · simpa using he1.trans he2.symm
      · refine absurd ?_ h.1
        rw [← he1]
        simpa using List.mem_map_of_mem Prod.fst ht2
    · rcases List.mem_cons.mp h2 with he2 | ht2
      · refine absurd ?_ h.1
        rw [← he2]
        simpa using List.mem_map_of_mem Prod.fst ht1
      · exact ih h.2 ht1 ht2

mutual

theorem vrds_congr (fs1 fs2 : FS)
    (h : ∀ q, get_files_and_dirs fs1 q = get_files_and_dirs fs2 q)
    (dirs : List String) (l : List DirStructure) :
    validate_required_dir_structures fs1 dirs l =
      validate_required_dir_structures fs2 dirs l := by
  cases l with
  | nil => simp [validate_required_dir_structures]
  | cons s rest =>
    have hrest := vrds_congr fs1 fs2 h dirs rest
    by_cases ho : s.is_optional = true
    · simp only [validate_required_dir_structures, ho, if_true, hrest]
    · cases hf : dirs.find? (fun n => fnmatch n s.pattern) with
      | some n =>
        have hchild := vds_congr fs1 fs2 h s n
        simp only [validate_required_dir_structures, ho, Bool.false_eq_true,
          if_false, hf, hchild, hrest]
      | none =>
        simp only [validate_required_dir_structures, ho, Bool.false_eq_true,
          if_false, hf, hrest]
termination_by sizeOf l
decreasing_by
  all_goals simp_wf
  all_goals omega

theorem vds_congr (fs1 fs2 : FS)
    (h : ∀ q, get_files_and_dirs fs1 q = get_files_and_dirs fs2 q)
    (d : DirStructure) (p : String) :
    validate_dir_structure fs1 d p = validate_dir_structure fs2 d p := by
  obtain ⟨pat, opt, subs, fls⟩ := d
  have hsub : ∀ ds, validate_required_dir_structures fs1 ds subs =
      validate_required_dir_structures fs2 ds subs :=
    fun ds => vrds_congr fs1 fs2 h ds subs
  simp only [validate_dir_structure, h p, hsub]
termination_by sizeOf d
decreasing_by
  simp_wf
  omega

end

/-- C10: the lister splits the listed entries into two disjoint lists of
names drawn from the directory's immediate entries, but an entry that is
neither a regular file nor a directory (`EntryKind.other`, e.g. a broken
symlink or a socket) lands in neither list; consequently such an entry is
invisible to validation — removing it from the listing changes no outcome
of `validate_dir_structure`, so it never triggers any diagnostic. -/
theorem other_entries_omitted_and_invisible
    (fs : FS) (p0 : String) (l1 l2 : Listing) (name : String)
    (files dirs : List String) (d : DirStructure) (p : String)
    (hl : fs p0 = some (l1 ++ (name, EntryKind.other) :: l2))
    (hnd : (((l1 ++ (name, EntryKind.other) :: l2)).map Prod.fst).Nodup)
    (hg : get_files_and_dirs fs p0 = Except.ok (files, dirs)) :
    (∀ n, n ∈ files → n ∉ dirs) ∧
    (∀ n, n ∈ files ∨ n ∈ dirs →
      n ∈ (l1 ++ (name, EntryKind.other) :: l2).map Prod.fst) ∧
    name ∉ files ∧ name ∉ dirs ∧
    validate_dir_structure fs d p =
      validate_dir_structure
        (fun q => if q = p0 then some (l1 ++ l2) else fs q) d p := by
  have hother : (name, EntryKind.other) ∈ l1 ++ (name, EntryKind.other) :: l2 :=
    List.mem_append_right _ (List.mem_cons_self _ _)
  simp only [get_files_and_dirs, hl, Except.ok.injEq, Prod.mk.injEq] at hg
  have hmem : ∀ (k : EntryKind) (n : String),
      n ∈ (((l1 ++ (name, EntryKind.other) :: l2).filter
        (fun pr => pr.2 = k)).map Prod.fst) ↔
      (n, k) ∈ l1 ++ (name, EntryKind.other) :: l2 := by
    intro k n
    simp only [List.mem_map, List.mem_filter, decide_eq_true_eq]
    constructor
    · rintro ⟨⟨a, b⟩, ⟨hpr, hk⟩, hfst⟩
      simp only at hk hfst
      rw [← hfst, ← hk]
      exact hpr
    · intro hmem
      exact ⟨(n, k), ⟨hmem, rfl⟩, rfl⟩
  have hfiles : ∀ n, n ∈ files ↔
      (n, EntryKind.file) ∈ l1 ++ (name, EntryKind.other) :: l2 := by
    intro n
    rw [← hg.1]
    exact hmem EntryKind.file n
  have hdirs : ∀ n, n ∈ dirs ↔
      (n, EntryKind.dir) ∈ l1 ++ (name, EntryKind.other) :: l2 := by
    intro n
    rw [← hg.2]
    exact hmem EntryKind.dir n
  refine ⟨?_, ?_, ?_, ?_, ?_⟩
  · intro n hnf hndir
    exact EntryKind.noConfusion
      (nodup_fst_mem_unique hnd ((hfiles n).mp hnf) ((hdirs n).mp hndir))
  · intro n hn
    rcases hn with hn | hn
    · exact List.mem_map_of_mem Prod.fst ((hfiles n).mp hn)
    · exact List.mem_map_of_mem Prod.fst ((hdirs n).mp hn)
  · intro hn
    exact EntryKind.noConfusion
      (nodup_fst_mem_unique hnd ((hfiles name).mp hn) hother)
  · intro hn
    exact EntryKind.noConfusion
      (nodup_fst_mem_unique hnd ((hdirs name).mp hn) hother)
  · apply vds_congr
    intro q
    by_cases hq : q = p0
    · subst hq
      simp [get_files_and_dirs, hl, List.filter_append, List.filter_cons]
    · simp [get_files_and_dirs, hq]

/-- Witness for C10: a root directory listing a file `a.txt`, a broken
symlink `ghost` (neither file nor directory) and a subdirectory `sub`. -/
theorem other_entries_omitted_and_invisible_witness :
    (fun q => if q = "root" then
        some [("a.txt", EntryKind.file), ("ghost", EntryKind.other),
          ("sub", EntryKind.dir)]
      else if q = "sub" then some [] else none : FS) "root" =
      some ([("a.txt", EntryKind.file)] ++
        ("ghost", EntryKind.other) :: [("sub", EntryKind.dir)]) ∧
    ((([("a.txt", EntryKind.file)] ++
        ("ghost", EntryKind.other) :: [("sub", EntryKind.dir)])).map Prod.fst).Nodup ∧
    get_files_and_dirs
      (fun q => if q = "root" then
          some [("a.txt", EntryKind.file), ("ghost", EntryKind.other),
            ("sub", EntryKind.dir)]
        else if q = "sub" then some [] else none) "root" =
      Except.ok (["a.txt"], ["sub"]) ∧
    ((∀ n, n ∈ ["a.txt"] → n ∉ ["sub"]) ∧
     (∀ n, n ∈ ["a.txt"] ∨ n ∈ ["sub"] →
       n ∈ ([("a.txt", EntryKind.file)] ++
         ("ghost", EntryKind.other) :: [("sub", EntryKind.dir)]).map Prod.fst) ∧
     "ghost" ∉ ["a.txt"] ∧ "ghost" ∉ ["sub"] ∧
     validate_dir_structure
       (fun q => if q = "root" then
           some [("a.txt", EntryKind.file), ("ghost", EntryKind.other),
             ("sub", EntryKind.dir)]
         else if q = "sub" then some [] else none)
       ⟨"root", false, [], []⟩ "root" =
     validate_dir_structure
       (fun q => if q = "root" then
           some ([("a.txt", EntryKind.file)] ++ [("sub", EntryKind.dir)])
         else
           (fun q => if q = "root" then
               some [("a.txt", EntryKind.file), ("ghost", EntryKind.other),
                 ("sub", EntryKind.dir)]
             else if q = "sub" then some [] else none) q)
       ⟨"root", false, [], []⟩ "root") :=
  ⟨rfl, by decide, rfl,
   other_entries_omitted_and_invisible _ "root"
     [("a.txt", EntryKind.file)] [("sub", EntryKind.dir)] "ghost"
     ["a.txt"] ["sub"] ⟨"root", false, [], []⟩ "root" rfl (by decide) rfl⟩

end DSCheck
